import Mathlib

/-!
Shallow embedding of the booking engine of the airline-reservation service
(`src/services/ticket_service.rs`), together with proofs of the behavioural
properties claimed by its specification.

The relational store is modelled as lists of rows (`DB`); SQL statements are
translated one-for-one: `fetch_optional` is `List.find?` (first matching row),
`fetch_one` is `List.find?` plus a `DatabaseError` on a missing row, and an
`UPDATE`/`DELETE` maps or filters every matching row, returning the affected
row count where the code inspects `rows_affected`.

`NaiveDate`/`NaiveTime` values only flow through the engine unchanged, so
dates and times are modelled as integers.

Concurrent interference on the optimistic-concurrency (OCC) retry loops is
modelled by an explicit conflict budget: before a conflicted attempt's
version-gated `UPDATE` lands, the environment commits a balanced pair of
mutations on the target row (a competitor acquires and a compensation
releases), which bumps the row's `version` by 2 while leaving the other
columns as read, so the gated update genuinely matches zero rows and the
loop takes its `rows_affected() == 0` branch.  The fully general
interleaving model for the ticket-quota loop is developed separately
(`QuotaSys` below) for the no-oversell theorem.
-/

namespace BookingEngine

/-- `SeatStatus` from `src/models/flight.rs` (persisted as
`AVAILABLE`/`BOOKED`/`UNAVAILABLE`). -/
inductive SeatStatus where
  | Available
  | Booked
  | Unavailable
deriving Repr, DecidableEq

/-- `AppError` from `src/utils/error.rs`. -/
inductive AppError where
  | DatabaseError (msg : String)
  | AuthError (msg : String)
  | ValidationError (msg : String)
  | NotFound (msg : String)
  | Conflict (msg : String)
  | Unprocessable (msg : String)
  | BadRequest (msg : String)
deriving Repr, DecidableEq

deriving instance DecidableEq for Except

/-- The `Display` rendering generated by `thiserror` for `AppError`
(`#[error("...")]` attributes); note `DatabaseError` drops its payload. -/
def AppError.render : AppError → String
  | .DatabaseError _ => "Database error"
  | .AuthError s => "Authentication error: " ++ s
  | .ValidationError s => "Validation error: " ++ s
  | .NotFound s => "Not found: " ++ s
  | .Conflict s => "Conflict: " ++ s
  | .Unprocessable s => "Unprocessable: " ++ s
  | .BadRequest s => "Bad request: " ++ s

/-- Whether an error is the `Conflict` variant of `AppError`. -/
def AppError.isConflict : AppError → Bool
  | .Conflict _ => true
  | _ => false

/-- A row of the `flight` table (`Flight` in `src/models/flight.rs`). -/
structure FlightRow where
  flight_id : Int
  flight_number : Int
  flight_date : Int
  available_tickets : Int
  version : Int
deriving Repr, DecidableEq

/-- A row of the `seat_info` table. -/
structure SeatRow where
  flight_id : Int
  seat_number : Int
  seat_status : SeatStatus
  version : Int
deriving Repr, DecidableEq

/-- A row of the `ticket` table (`Ticket` in `src/models/ticket.rs`). -/
structure TicketRow where
  id : Int
  customer_id : Int
  flight_id : Int
  seat_number : Option Int
  flight_date : Int
  flight_number : Int
deriving Repr, DecidableEq

/-- A row of the `flight_route` table (`FlightRoute` in
`src/models/flight.rs`), restricted to the columns `get_history` reads. -/
structure FlightRouteRow where
  flight_number : Int
  departure_city : String
  destination_city : String
  departure_time : Int
  arrival_time : Int
deriving Repr, DecidableEq

/-- The relational store.  `next_ticket_id` models the `AUTO_INCREMENT`
counter behind `last_insert_id()`. -/
structure DB where
  flights : List FlightRow
  seats : List SeatRow
  tickets : List TicketRow
  routes : List FlightRouteRow
  next_ticket_id : Int
deriving Repr, DecidableEq

/-- `FlightBookingRequest` from `src/models/ticket.rs`. -/
structure FlightBookingRequest where
  flight_number : Int
  flight_date : Int
  preferred_seat : Option Int
deriving Repr, DecidableEq

/-- `TicketBookingRequest` from `src/models/ticket.rs`. -/
structure TicketBookingRequest where
  flights : List FlightBookingRequest
deriving Repr, DecidableEq

/-- `FlightBookingResponse` from `src/models/ticket.rs`. -/
structure FlightBookingResponse where
  ticket_id : Int
  flight_details : String
  seat_number : Option Int
deriving Repr, DecidableEq

/-- `TicketBookingResponse` from `src/models/ticket.rs`. -/
structure TicketBookingResponse where
  flight_bookings : List FlightBookingResponse
  booking_status : String
deriving Repr, DecidableEq

/-- `SeatBookingRequest` from `src/models/ticket.rs`. -/
structure SeatBookingRequest where
  flight_number : Int
  flight_date : Int
  seat_number : Int
deriving Repr, DecidableEq

/-- `BookingHistoryDetail` from `src/models/ticket.rs`. -/
structure BookingHistoryDetail where
  flight_number : Int
  seat_number : String
  departure_city : String
  destination_city : String
  flight_date : Int
  departure_time : Int
  arrival_time : Int
deriving Repr, DecidableEq

/-- `SELECT ... FROM flight WHERE flight_number = ? AND flight_date = ?`
(first row, as `fetch_optional`). -/
def findFlight (db : DB) (fn fd : Int) : Option FlightRow :=
  db.flights.find? (fun f => f.flight_number = fn && f.flight_date = fd)

/-- `SELECT ... FROM seat_info WHERE flight_id = ? AND seat_number = ?`
(first row). -/
def findSeat (db : DB) (fid sn : Int) : Option SeatRow :=
  db.seats.find? (fun s => s.flight_id = fid && s.seat_number = sn)

/-- `UPDATE flight SET ... WHERE p`, returning the updated table and
`rows_affected()`. -/
def updateFlights (rows : List FlightRow) (p : FlightRow → Bool)
    (f : FlightRow → FlightRow) : List FlightRow × Nat :=
  (rows.map (fun r => if p r then f r else r), rows.countP p)

/-- `UPDATE seat_info SET ... WHERE p`, returning the updated table and
`rows_affected()`. -/
def updateSeats (rows : List SeatRow) (p : SeatRow → Bool)
    (f : SeatRow → SeatRow) : List SeatRow × Nat :=
  (rows.map (fun r => if p r then f r else r), rows.countP p)

/-- `UPDATE ticket SET ... WHERE p`. -/
def updateTickets (rows : List TicketRow) (p : TicketRow → Bool)
    (f : TicketRow → TicketRow) : List TicketRow :=
  rows.map (fun r => if p r then f r else r)

/-- The environment event that produces a transient conflict on a seat row:
between our read and our version-gated update, a competitor books the seat
and a compensation releases it again, so the row's `version` has advanced by
2 while its other columns are as read.  Both writes commit, so they survive
our rollback. -/
def seatConflictEvent (db : DB) (fid sn : Int) : DB :=
  { db with
    seats := (updateSeats db.seats
      (fun s => s.flight_id = fid && s.seat_number = sn)
      (fun s => { s with version := s.version + 2 })).1 }

/-- The version-gated `UPDATE seat_info SET seat_status='BOOKED',
version=version+1 WHERE flight_id=? AND seat_number=? AND version=? AND
seat_status='AVAILABLE'` of `book_seat` (`src/services/ticket_service.rs:326-342`),
run against the committed state `db1`. -/
def seatGatedUpdate (db1 : DB) (flight_id new_seat_number read_version : Int) :
    List SeatRow × Nat :=
  updateSeats db1.seats
    (fun s => s.flight_id = flight_id && s.seat_number = new_seat_number
      && s.version = read_version
      && s.seat_status = SeatStatus.Available)
    (fun s => { s with seat_status := SeatStatus.Booked, version := s.version + 1 })

/-- The remainder of `book_seat`'s successful iteration
(`src/services/ticket_service.rs:353-384`): free the old seat if any, point
the customer's ticket rows for this flight at the new seat, commit. -/
def book_seat_commit (db1 : DB) (seats_after_gate : List SeatRow)
    (customer_id flight_id new_seat_number : Int) (old_seat_number : Option Int) :
    Except AppError Bool × DB :=
  let seats2 := match old_seat_number with
    | some old_seat => (updateSeats seats_after_gate
        (fun s => s.flight_id = flight_id && s.seat_number = old_seat)
        (fun s => { s with seat_status := SeatStatus.Available,
                           version := s.version + 1 })).1
    | none => seats_after_gate
  let tickets2 := updateTickets db1.tickets
    (fun t => t.customer_id = customer_id && t.flight_id = flight_id)
    (fun t => { t with seat_number := some new_seat_number })
  (.ok true, { db1 with seats := seats2, tickets := tickets2 })

/-- `TicketService::book_seat` (`src/services/ticket_service.rs:287-386`).
`conflicts` is the number of attempts on which the environment commits a
`seatConflictEvent` before our gated update lands; each loop iteration
mirrors the source: read the new seat, reject a missing or non-Available
seat, attempt the version-gated update; zero affected rows means roll back
and retry, else finish via `book_seat_commit`. -/
def book_seat (db : DB) (customer_id flight_id new_seat_number : Int)
    (old_seat_number : Option Int) (conflicts : Nat) : Except AppError Bool × DB :=
  match findSeat db flight_id new_seat_number with
  | none => (.error (.ValidationError "The new seat is not found"), db)
  | some new_seat_info =>
    if new_seat_info.seat_status ≠ SeatStatus.Available then
      (.error (.ValidationError "The new seat is already booked or unavailable"), db)
    else
      match conflicts with
      | Nat.zero =>
        let gated := seatGatedUpdate db flight_id new_seat_number new_seat_info.version
        if gated.2 = 0 then
          -- dead branch: with no interference the gate matches the row just
          -- read (see `gated_update_matches_read`); the source would retry.
          (.error (.DatabaseError "retry"), db)
        else
          book_seat_commit db gated.1 customer_id flight_id new_seat_number old_seat_number
      | Nat.succ k =>
        -- a conflicting pair of competitor writes commits first
        let db1 := seatConflictEvent db flight_id new_seat_number
        let gated := seatGatedUpdate db1 flight_id new_seat_number new_seat_info.version
        if gated.2 = 0 then
          -- rows_affected() == 0: roll back, back off, retry
          book_seat db1 customer_id flight_id new_seat_number old_seat_number k
        else
          book_seat_commit db1 gated.1 customer_id flight_id new_seat_number old_seat_number

/-- `TicketService::book_seat_for_ticket`
(`src/services/ticket_service.rs:388-463`). -/
def book_seat_for_ticket (db : DB) (customer_id : Int) (request : SeatBookingRequest)
    (conflicts : Nat) : Except AppError Bool × DB :=
  match findFlight db request.flight_number request.flight_date with
  | none =>
    let fn := request.flight_number
    let fd := request.flight_date
    (.error (.BadRequest s!"Flight {fn} does not exist on {fd}\n"), db)
  | some flight =>
    match db.tickets.find? (fun t => t.customer_id = customer_id
        && t.flight_id = flight.flight_id) with
    | none =>
      (.error (.BadRequest "Customer does not have a ticket for this flight"), db)
    | some ticket =>
      if ticket.seat_number = some request.seat_number then
        (.error (.BadRequest "Cannot book the same seat you already have"), db)
      else
        book_seat db customer_id flight.flight_id request.seat_number
          ticket.seat_number conflicts

/-- `TicketService::revert_booking` (`src/services/ticket_service.rs:64-117`):
the saga compensation for one already-booked leg.  Note the source passes
`flight.flight_id` — not `request.ticket_id` — to
`DELETE FROM ticket WHERE id = ?`; the deletion below reproduces that
faithfully. -/
def revert_booking (db : DB) (request : FlightBookingResponse) :
    (Except AppError Unit) × DB :=
  match db.tickets.find? (fun t => t.id = request.ticket_id) with
  | none =>
    ((.error (.DatabaseError "no rows returned by a query that expected to return at least one row")), db)
  | some flight_of_ticket =>
    let flight_id := flight_of_ticket.flight_id
    let flights2 := (updateFlights db.flights (fun f => f.flight_id = flight_id)
      (fun f => { f with available_tickets := f.available_tickets + 1,
                         version := f.version + 1 })).1
    -- `DELETE FROM ticket WHERE id = ?` bound to `flight.flight_id`
    let tickets2 := db.tickets.filter (fun t => !(t.id = flight_id))
    let db2 := { db with flights := flights2, tickets := tickets2 }
    match request.seat_number with
    | some s =>
      let seats2 := (updateSeats db2.seats
        (fun st => st.flight_id = flight_id && st.seat_number = s)
        (fun st => { st with seat_status := SeatStatus.Available,
                             version := st.version + 1 })).1
      (.ok (), { db2 with seats := seats2 })
    | none => (.ok (), db2)

/-- The environment event that produces a transient conflict on the flight
row: a competitor's acquire (−1 ticket, +1 version) and a compensation's
release (+1 ticket, +1 version) both commit between our read and our gated
update, so `version` has advanced by 2 with `available_tickets` as read. -/
def quotaConflictEvent (db : DB) (fid : Int) : DB :=
  { db with flights := (updateFlights db.flights (fun f => f.flight_id = fid)
      (fun f => { f with version := f.version + 2 })).1 }

/-- The version-gated `UPDATE flight SET available_tickets =
available_tickets - 1, version = version + 1 WHERE flight_id = ? AND
version = ?` (`src/services/ticket_service.rs:201-213`). -/
def flightGatedUpdate (db1 : DB) (fid read_version : Int) : List FlightRow × Nat :=
  updateFlights db1.flights
    (fun f => f.flight_id = fid && f.version = read_version)
    (fun f => { f with available_tickets := f.available_tickets - 1,
                       version := f.version + 1 })

/-- The OCC retry loop of `book_ticket_for_flight`
(`src/services/ticket_service.rs:174-225`): re-read the flight, fail if
`available_tickets == 0`, attempt the version-gated decrement, retry on
`rows_affected() == 0`.  Returns the flight row the successful iteration
read, as the source's `flight` variable after the loop. -/
def acquire_quota (db : DB) (fn fd : Int) (conflicts : Nat) :
    (Except AppError FlightRow) × DB :=
  match findFlight db fn fd with
    | none =>
      ((.error (.DatabaseError "no rows returned by a query that expected to return at least one row")), db)
    | some flight =>
      if flight.available_tickets = 0 then
        ((.error (.ValidationError "This flight is fully booked.")), db)
      else
        match conflicts with
        | Nat.zero =>
          let gated := flightGatedUpdate db flight.flight_id flight.version
          if gated.2 = 0 then
            -- dead branch: with no interference the gate matches the row just
            -- read; the source would retry.
            ((.error (.DatabaseError "retry")), db)
          else
            (.ok flight, { db with flights := gated.1 })
        | Nat.succ k =>
          let db1 := quotaConflictEvent db flight.flight_id
          let gated := flightGatedUpdate db1 flight.flight_id flight.version
          if gated.2 = 0 then
            -- rows_affected() == 0: roll back, back off, retry
            acquire_quota db1 fn fd k
          else
            (.ok flight, { db1 with flights := gated.1 })

/-- Environment choices for one leg of a booking: how many transient
conflicts the quota loop sees, whether the `INSERT INTO ticket` fails (with
the store's message), and how many transient conflicts the seat loop sees. -/
structure LegEnv where
  quota_conflicts : Nat
  insert_fail : Option String
  seat_conflicts : Nat
deriving Repr, DecidableEq

/-- The interference-free environment for a leg. -/
def defaultLegEnv : LegEnv := ⟨0, none, 0⟩

/-- `TicketService::book_ticket_for_flight`
(`src/services/ticket_service.rs:119-285`): check the flight exists, reject
a duplicate booking, acquire one unit of quota via the OCC loop, insert the
Ticket row, then best-effort book the preferred seat. -/
def book_ticket_for_flight (db : DB) (user_id : Int) (request : FlightBookingRequest)
    (env : LegEnv) : (Except AppError FlightBookingResponse) × DB :=
  match findFlight db request.flight_number request.flight_date with
  | none =>
    let fn := request.flight_number
    let fd := request.flight_date
    ((.error (.BadRequest s!"Flight {fn} does not exist on {fd}\n")), db)
  | some _ =>
    -- do not allow re-booking the same flight for now
    match db.tickets.find? (fun t => t.customer_id = user_id
        && t.flight_number = request.flight_number
        && t.flight_date = request.flight_date) with
    | some _ => ((.error (.BadRequest "Cannot re-book the same flight")), db)
    | none =>
      match acquire_quota db request.flight_number request.flight_date env.quota_conflicts with
      | (.error e, db2) => (.error e, db2)
      | (.ok flight, db2) =>
        match env.insert_fail with
        | some msg => ((.error (.DatabaseError msg)), db2)
        | none =>
          let ticket_id := db2.next_ticket_id
          let db3 : DB := { db2 with
            tickets := db2.tickets ++
              [{ id := ticket_id, customer_id := user_id,
                 flight_id := flight.flight_id, seat_number := none,
                 flight_date := flight.flight_date,
                 flight_number := flight.flight_number }],
            next_ticket_id := ticket_id + 1 }
          let fn := flight.flight_number
          let fd := flight.flight_date
          let response : FlightBookingResponse :=
            { ticket_id := ticket_id, flight_details := s!"Flight {fn} on {fd}",
              seat_number := none }
          match request.preferred_seat with
          | some prefered_seat =>
            let r := book_seat_for_ticket db3 user_id
              { flight_number := flight.flight_number,
                flight_date := flight.flight_date,
                seat_number := prefered_seat } env.seat_conflicts
            match r.1 with
            | .ok _ => (.ok { response with seat_number := some prefered_seat }, r.2)
            | .error _ => (.ok response, r.2)
          | none => (.ok response, db3)

/-- The `for existing_booking in &flight_booking_results` compensation loop
of `book_ticket` (`src/services/ticket_service.rs:44-46`); the `?` operator
stops at the first compensation failure. -/
def revert_all (db : DB) : List FlightBookingResponse → (Except AppError Unit) × DB
  | [] => (.ok (), db)
  | b :: rest =>
    match revert_booking db b with
    | (.error e, db2) => (.error e, db2)
    | (.ok _, db2) => revert_all db2 rest

/-- The per-leg loop of `TicketService::book_ticket`
(`src/services/ticket_service.rs:22-62`), carrying the accumulated
responses and the `fail_to_choose_seat` flag. -/
def book_ticket_go (db : DB) (user_id : Int) (legs : List FlightBookingRequest)
    (envs : List LegEnv) (acc : List FlightBookingResponse) (fail_to_choose_seat : Bool) :
    (Except AppError TicketBookingResponse) × DB :=
  match legs with
  | [] =>
    ((.ok { flight_bookings := acc,
            booking_status := if !fail_to_choose_seat then "Confirmed"
              else "Confirmed booking, however the preferred seat is currently unavaiable, please try again later." }),
     db)
  | leg :: rest =>
    let has_prefered_seat := leg.preferred_seat.isSome
    match book_ticket_for_flight db user_id leg (envs.headD defaultLegEnv) with
    | (.ok r, db2) =>
      book_ticket_go db2 user_id rest envs.tail (acc ++ [r])
        (fail_to_choose_seat || (has_prefered_seat && r.seat_number.isNone))
    | (.error e, db2) =>
      -- revert existing bookings
      match revert_all db2 acc with
      | (.error e2, db3) => (.error e2, db3)
      | (.ok _, db3) =>
        ((.error (.ValidationError
          ("Failed to book some of your flights, please try again: " ++ e.render))), db3)

/-- `TicketService::book_ticket` (`src/services/ticket_service.rs:22-62`).
`envs` lists the environment choices for the successive legs (defaulting to
no interference when shorter than the request). -/
def book_ticket (db : DB) (user_id : Int) (request : TicketBookingRequest)
    (envs : List LegEnv) : (Except AppError TicketBookingResponse) × DB :=
  book_ticket_go db user_id request.flights envs [] false

/-- One raw row of `get_history`'s join query
(`src/services/ticket_service.rs:466-485`). -/
structure HistoryRow where
  flight_number : Int
  seat_number : Option Int
  departure_city : String
  destination_city : String
  flight_date : Int
  departure_time : Int
  arrival_time : Int
deriving Repr, DecidableEq

/-- `BookingHistoryResponse` from `src/models/ticket.rs`. -/
structure BookingHistoryResponse where
  flights : List BookingHistoryDetail
deriving Repr, DecidableEq

/-- The `FROM ticket t INNER JOIN flight f ON t.flight_id = f.flight_id
INNER JOIN flight_route fr ON f.flight_number = fr.flight_number WHERE
t.customer_id = ?` part of `get_history`. -/
def history_join (db : DB) (user_id : Int) : List HistoryRow :=
  (db.tickets.filter (fun t => t.customer_id = user_id)).flatMap (fun t =>
    (db.flights.filter (fun f => f.flight_id = t.flight_id)).flatMap (fun f =>
      (db.routes.filter (fun r => r.flight_number = f.flight_number)).map (fun r =>
        { flight_number := f.flight_number, seat_number := t.seat_number,
          departure_city := r.departure_city,
          destination_city := r.destination_city, flight_date := f.flight_date,
          departure_time := r.departure_time, arrival_time := r.arrival_time })))

/-- Insert a row into a list already ordered by descending flight date. -/
def insertDateDesc (x : HistoryRow) : List HistoryRow → List HistoryRow
  | [] => [x]
  | y :: ys =>
    if y.flight_date ≤ x.flight_date then x :: y :: ys else y :: insertDateDesc x ys

/-- `ORDER BY f.flight_date DESC`. -/
def sortDateDesc (rows : List HistoryRow) : List HistoryRow :=
  rows.foldr insertDateDesc []

/-- The row mapping of `get_history`
(`src/services/ticket_service.rs:487-517`): render the seat number, or
"Not Selected" when the ticket has none. -/
def render_history_row (row : HistoryRow) : BookingHistoryDetail :=
  { flight_number := row.flight_number,
    seat_number := match row.seat_number with
      | some s => toString s
      | none => "Not Selected",
    departure_city := row.departure_city,
    destination_city := row.destination_city,
    flight_date := row.flight_date,
    departure_time := row.departure_time,
    arrival_time := row.arrival_time }

/-- `TicketService::get_history` (`src/services/ticket_service.rs:465-521`):
a single read-only query; the store state is returned untouched. -/
def get_history (db : DB) (user_id : Int) : BookingHistoryResponse × DB :=
  ({ flights := (sortDateDesc (history_join db user_id)).map render_history_row }, db)

/-!
## Interleaving model of the ticket-quota OCC loop

`QuotaSys` models one flight row's `(available_tickets, version)` columns
together with any number of concurrent executions of the retry loop of
`book_ticket_for_flight` (`src/services/ticket_service.rs:174-225`), one
`AttSt` per caller.  Each caller alternates two atomic store operations:
the `SELECT` (with the local `available_tickets == 0` test on the values it
returned) and the version-gated conditional `UPDATE`.  A schedule — an
arbitrary list of caller indices — decides the interleaving; `quotaRun`
executes it. -/

/-- The control state of one concurrent quota-loop execution. -/
inductive AttSt where
  /-- about to execute the `SELECT` of a (re)try iteration -/
  | running
  /-- the `SELECT` returned `(avail, ver)` and `avail ≠ 0`; about to attempt
  the gated `UPDATE ... WHERE flight_id = ? AND version = ?` -/
  | ready (avail ver : Int)
  /-- the gated update succeeded; this caller holds one unit of quota -/
  | succeeded
  /-- the loop returned this error (`available_tickets == 0` at a read) -/
  | failed (e : AppError)
deriving Repr, DecidableEq

/-- The flight row's shared columns plus every caller's control state. -/
structure QuotaSys where
  avail : Int
  ver : Int
  atts : List AttSt
deriving Repr, DecidableEq

/-- The next atomic store operation of caller `i`; callers that have
returned take no further steps. -/
def quotaStep (s : QuotaSys) (i : Nat) : QuotaSys :=
  match s.atts.get? i with
  | some AttSt.running =>
    if s.avail = 0 then
      let e := AppError.ValidationError "This flight is fully booked."
      { s with atts := s.atts.set i (AttSt.failed e) }
    else
      { s with atts := s.atts.set i (AttSt.ready s.avail s.ver) }
  | some (AttSt.ready _ v) =>
    if s.ver = v then
      { avail := s.avail - 1, ver := s.ver + 1, atts := s.atts.set i AttSt.succeeded }
    else
      -- `rows_affected() == 0`: roll back and re-enter the loop
      { s with atts := s.atts.set i AttSt.running }
  | _ => s

/-- Run a schedule of caller indices. -/
def quotaRun (s : QuotaSys) (sched : List Nat) : QuotaSys :=
  sched.foldl quotaStep s

/-- `n` callers about to enter the loop on a flight with `Q` tickets left at
version `v0`. -/
def quotaInit (Q v0 : Int) (n : Nat) : QuotaSys :=
  { avail := Q, ver := v0, atts := List.replicate n AttSt.running }

/-- Whether a caller's loop execution has returned. -/
def AttSt.terminated : AttSt → Bool
  | AttSt.succeeded => true
  | AttSt.failed _ => true
  | _ => false

/-- The number of callers whose acquisition has succeeded. -/
def succCount (atts : List AttSt) : Nat :=
  atts.countP (fun a => a = AttSt.succeeded)

/-- Whether a caller's loop execution has returned an error. -/
def AttSt.isFailed : AttSt → Bool
  | AttSt.failed _ => true
  | _ => false

/-- The number of callers whose loop has returned an error. -/
def failCount (atts : List AttSt) : Nat :=
  atts.countP (fun a => a.isFailed)

/-- The inductive invariant of the quota interleaving model: the flight row
never oversells (`avail ≥ 0`), quota and version move in lockstep with the
number of successful acquisitions, every pending gated update's read values
are consistent with its read version, and failures happen only once the
quota is exhausted, with the fully-booked error. -/
def QuotaInv (Q v0 : Int) (n : Nat) (s : QuotaSys) : Prop :=
  s.atts.length = n ∧
  0 ≤ s.avail ∧
  s.avail + (succCount s.atts : Int) = Q ∧
  s.ver = v0 + (succCount s.atts : Int) ∧
  (∀ a v, AttSt.ready a v ∈ s.atts → 0 < a ∧ a + (v - v0) = Q) ∧
  ((∃ st ∈ s.atts, st.isFailed = true) → s.avail = 0) ∧
  (∀ e, AttSt.failed e ∈ s.atts →
    e = AppError.ValidationError "This flight is fully booked.")

/-- Whether a `book_seat`-style result is the `Conflict` error variant. -/
def resultConflict (r : Except AppError Bool) : Bool :=
  match r with
  | .error e => e.isConflict
  | .ok _ => false

/-- The aggregate soft-warning status string of `book_ticket`
(`src/services/ticket_service.rs:58`, typo included). -/
def softSeatStatus : String :=
  "Confirmed booking, however the preferred seat is currently unavaiable, please try again later."

/-- A leg that requested a preferred seat whose booked response carries no
seat: exactly the condition under which `book_ticket` sets
`fail_to_choose_seat`. -/
def legSeatFail (leg : FlightBookingRequest) (resp : FlightBookingResponse) : Bool :=
  leg.preferred_seat.isSome && resp.seat_number.isNone

/-! ## Concrete stores used by counterexamples and witnesses -/

/-- A store with one flight holding one remaining ticket and a second,
fully-booked flight; the auto-increment counter is at 7, so the first leg's
ticket will get id 7 while its flight has id 1. -/
def twoLegDb : DB :=
  { flights := [⟨1, 101, 10, 1, 0⟩, ⟨2, 102, 10, 0, 0⟩],
    seats := [], tickets := [], routes := [], next_ticket_id := 7 }

/-- A store where customer 7 holds a seatless ticket on flight 1 and seat 5
of flight 1 is Available. -/
def seatDb : DB :=
  { flights := [⟨1, 101, 10, 3, 0⟩],
    seats := [⟨1, 5, SeatStatus.Available, 0⟩],
    tickets := [⟨1, 7, 1, none, 10, 101⟩], routes := [], next_ticket_id := 2 }

/-- A store where seat 5 of flight 1 is already Booked. -/
def bookedSeatDb : DB :=
  { flights := [⟨1, 101, 10, 3, 0⟩],
    seats := [⟨1, 5, SeatStatus.Booked, 4⟩],
    tickets := [⟨1, 7, 1, none, 10, 101⟩], routes := [], next_ticket_id := 2 }

/-- A store where customer 3 already holds a ticket for flight 101 on
date 10. -/
def rebookDb : DB :=
  { flights := [⟨1, 101, 10, 4, 0⟩], seats := [],
    tickets := [⟨5, 3, 1, none, 10, 101⟩], routes := [], next_ticket_id := 6 }

/-- A store where customer 3 holds two tickets: a seatless one on flight 101
(date 20) and seat 4 on flight 102 (date 30), with matching routes. -/
def histDb : DB :=
  { flights := [⟨1, 101, 20, 5, 0⟩, ⟨2, 102, 30, 5, 0⟩],
    seats := [],
    tickets := [⟨1, 3, 1, none, 20, 101⟩, ⟨2, 3, 2, some 4, 30, 102⟩],
    routes := [⟨101, "A", "B", 7, 9⟩, ⟨102, "C", "D", 8, 11⟩],
    next_ticket_id := 3 }

/-! ## Supporting lemmas -/

/-- `find?` commutes with a map that does not change whether the predicate
holds (our `UPDATE`s never change the key columns a later `SELECT ... WHERE`
filters on). -/
theorem find?_map_invariant {α : Type} (g : α → α) (p : α → Bool)
    (hp : ∀ a, p (g a) = p a) (l : List α) :
    (l.map g).find? p = (l.find? p).map g := by
  induction l with
  | nil => rfl
  | cons a l ih =>
    simp only [List.map_cons, List.find?_cons, hp a]
    cases hpa : p a <;> simp [ih]

/-- A list containing an element satisfying `p` has positive `countP p`
(an `UPDATE` whose `WHERE` clause matches a row affects at least one row). -/
theorem countP_pos_of_mem {α : Type} {l : List α} {a : α} {p : α → Bool}
    (ha : a ∈ l) (hpa : p a = true) : l.countP p ≠ 0 := by
  have : 0 < l.countP p := List.countP_pos_iff.mpr ⟨a, ha, hpa⟩
  omega

/-- The conflict event leaves the target seat in place, `version` advanced
by 2 and everything else as read. -/
theorem find?_condMap {α : Type} (l : List α) (p q : α → Bool) (f : α → α)
    (hinv : ∀ a, q (if p a then f a else a) = q a) :
    (l.map (fun r => if p r then f r else r)).find? q =
      (l.find? q).map (fun r => if p r then f r else r) := by
  induction l with
  | nil => rfl
  | cons a l ih =>
    by_cases hqa : q a = true
    · have h2 : q (if p a then f a else a) = true := by rw [hinv a]; exact hqa
      simp [List.find?, hqa, h2]
    · have h2 : q (if p a then f a else a) = false := by
        rw [hinv a]; exact Bool.eq_false_iff.mpr (fun hc => hqa hc)
      simp only [List.map_cons, List.find?_cons, h2, hqa, cond_false]
      exact ih

/-- The conflict event leaves the target seat in place, `version` advanced
by 2 and everything else as read. -/
theorem findSeat_conflictEvent (db : DB) (fid ns : Int) (s : SeatRow)
    (hs : findSeat db fid ns = some s) :
    findSeat (seatConflictEvent db fid ns) fid ns =
      some { s with version := s.version + 2 } := by
  have hpred := List.find?_some hs
  simp only [Bool.and_eq_true, decide_eq_true_eq] at hpred
  show (db.seats.map (fun r =>
      if r.flight_id = fid && r.seat_number = ns
      then { r with version := r.version + 2 } else r)).find?
      (fun s => s.flight_id = fid && s.seat_number = ns) =
    some { s with version := s.version + 2 }
  rw [find?_condMap db.seats _ _ _
    (fun a => by
      by_cases hh : a.flight_id = fid ∧ a.seat_number = ns <;> simp [hh])]
  have hs' : db.seats.find?
      (fun s => s.flight_id = fid && s.seat_number = ns) = some s := hs
  rw [hs']
  simp [hpred.1, hpred.2]

/-- With the seat present and Available, the version-gated seat update run
against the very store the read came from affects at least one row. -/
theorem seatGatedUpdate_hits (db : DB) (fid ns : Int) (s : SeatRow)
    (hs : findSeat db fid ns = some s) (hav : s.seat_status = SeatStatus.Available) :
    (seatGatedUpdate db fid ns s.version).2 ≠ 0 := by
  have hmem := List.mem_of_find?_eq_some hs
  have hpred := List.find?_some hs
  simp only [Bool.and_eq_true, decide_eq_true_eq] at hpred
  unfold seatGatedUpdate updateSeats
  exact countP_pos_of_mem hmem (by simp [hpred.1, hpred.2, hav])

/-- The seat-allocation loop terminates successfully after any finite number
of transient conflicts, provided the seat exists and is Available. -/
theorem book_seat_succeeds (k : Nat) : ∀ (db : DB) (c fid ns : Int)
    (os : Option Int) (s : SeatRow), findSeat db fid ns = some s →
    s.seat_status = SeatStatus.Available →
    (book_seat db c fid ns os k).1 = .ok true := by
  induction k with
  | zero =>
    intro db c fid ns os s hs hav
    have hhit := seatGatedUpdate_hits db fid ns s hs hav
    unfold book_seat
    rw [hs]
    simp [hav, hhit, book_seat_commit]
  | succ k ih =>
    intro db c fid ns os s hs hav
    unfold book_seat
    rw [hs]
    by_cases h0 : (seatGatedUpdate (seatConflictEvent db fid ns) fid ns s.version).2 = 0
    · simp only [ne_eq, hav, not_true_eq_false, if_false, h0, if_true]
      exact ih _ c fid ns os { s with version := s.version + 2 }
        (findSeat_conflictEvent db fid ns s hs) hav
    · simp [hav, h0, book_seat_commit]

/-- `book_seat` only ever returns `Ok` or a `ValidationError`/`DatabaseError`;
the `Conflict` error kind is never produced by the seat allocator. -/
theorem book_seat_no_conflict_error (k : Nat) : ∀ (db : DB) (c fid ns : Int)
    (os : Option Int), resultConflict (book_seat db c fid ns os k).1 = false := by
  induction k with
  | zero =>
    intro db c fid ns os
    unfold book_seat
    cases hs : findSeat db fid ns with
    | none => rfl
    | some s =>
      by_cases hav : s.seat_status = SeatStatus.Available
      · by_cases h0 : (seatGatedUpdate db fid ns s.version).2 = 0
        · simp [hav, h0, resultConflict, AppError.isConflict]
        · simp [hav, h0, resultConflict, AppError.isConflict, book_seat_commit]
      · simp [hav, resultConflict, AppError.isConflict]
  | succ k ih =>
    intro db c fid ns os
    unfold book_seat
    cases hs : findSeat db fid ns with
    | none => rfl
    | some s =>
      by_cases hav : s.seat_status = SeatStatus.Available
      · by_cases h0 : (seatGatedUpdate (seatConflictEvent db fid ns) fid ns s.version).2 = 0
        · simp only [ne_eq, hav, not_true_eq_false, if_false, h0, if_true]
          exact ih _ c fid ns os
        · simp [hav, h0, resultConflict, AppError.isConflict, book_seat_commit]
      · simp [hav, resultConflict, AppError.isConflict]

/-- The quota conflict event leaves the flight row found by
`(flight_number, flight_date)` in place with `version` advanced by 2. -/
theorem findFlight_conflictEvent (db : DB) (fn fd : Int) (fl : FlightRow)
    (hf : findFlight db fn fd = some fl) :
    findFlight (quotaConflictEvent db fl.flight_id) fn fd =
      some { fl with version := fl.version + 2 } := by
  simp only [findFlight, quotaConflictEvent, updateFlights]
  rw [find?_condMap db.flights _ _ _ (fun a => by
    by_cases hh : a.flight_id = fl.flight_id <;> simp [hh])]
  have hf' : db.flights.find?
      (fun f => f.flight_number = fn && f.flight_date = fd) = some fl := hf
  rw [hf']
  simp

/-- With the flight present, the version-gated decrement run against the
store the read came from affects at least one row. -/
theorem flightGatedUpdate_hits (db : DB) (fn fd : Int) (fl : FlightRow)
    (hf : findFlight db fn fd = some fl) :
    (flightGatedUpdate db fl.flight_id fl.version).2 ≠ 0 := by
  have hmem := List.mem_of_find?_eq_some hf
  unfold flightGatedUpdate updateFlights
  exact countP_pos_of_mem hmem (by simp)

/-- After the conflict event bumped every row of the flight, the gated
decrement with the stale read version affects no row (here using that all
rows of the flight id agree with the row read). -/
theorem flightGatedUpdate_misses (db : DB) (fl : FlightRow)
    (hu : ∀ g ∈ db.flights, g.flight_id = fl.flight_id → g = fl) :
    (flightGatedUpdate (quotaConflictEvent db fl.flight_id) fl.flight_id fl.version).2 = 0 := by
  simp only [flightGatedUpdate, quotaConflictEvent, updateFlights, List.countP_eq_zero]
  intro a ha
  simp only [List.mem_map] at ha
  obtain ⟨r, hr, hra⟩ := ha
  by_cases hp : r.flight_id = fl.flight_id
  · have hrfl := hu r hr hp
    subst hrfl
    simp [hp] at hra
    subst hra
    simp
  · simp [hp] at hra
    subst hra
    simp [hp]

/-- Full characterization of the quota-acquisition loop on a store whose
rows for the target flight id all agree with the row read: after `qc`
conflicted attempts the gated decrement lands.  The returned row is the one
read by the successful iteration (`version` advanced by the `2*qc`
environment bumps) and every row of the flight has `available_tickets`
decremented once and `version` advanced by `2*qc + 1`. -/
theorem acquire_quota_spec (qc : Nat) : ∀ (db : DB) (fn fd : Int) (fl : FlightRow),
    findFlight db fn fd = some fl →
    fl.available_tickets ≠ 0 →
    (∀ g ∈ db.flights, g.flight_id = fl.flight_id → g = fl) →
    acquire_quota db fn fd qc =
      ((.ok { fl with version := fl.version + 2 * (qc : Int) }),
       { db with flights := db.flights.map (fun r =>
           if r.flight_id = fl.flight_id
           then { r with available_tickets := r.available_tickets - 1,
                         version := r.version + 2 * (qc : Int) + 1 }
           else r) }) := by
  induction qc with
  | zero =>
    intro db fn fd fl hf hq hu
    have hhit := flightGatedUpdate_hits db fn fd fl hf
    unfold acquire_quota
    split
    · next heq => rw [hf] at heq; exact absurd heq (by simp)
    · next flight heq =>
      rw [hf] at heq
      injection heq with heq2
      subst heq2
      rw [if_neg hq]
      show (if (flightGatedUpdate db fl.flight_id fl.version).2 = 0 then
          ((Except.error (AppError.DatabaseError "retry")), db)
        else ((Except.ok fl),
          { db with flights := (flightGatedUpdate db fl.flight_id fl.version).1 })) = _
      rw [if_neg hhit]
      have hflights : (flightGatedUpdate db fl.flight_id fl.version).1 =
          db.flights.map (fun r =>
            if r.flight_id = fl.flight_id
            then { r with available_tickets := r.available_tickets - 1,
                          version := r.version + 2 * ((0 : Nat) : Int) + 1 }
            else r) := by
        unfold flightGatedUpdate updateFlights
        refine List.map_congr_left (fun r hr => ?_)
        by_cases hp : r.flight_id = fl.flight_id
        · have hrfl := hu r hr hp
          subst hrfl
          simp [hp]
        · simp [hp]
      rw [hflights]
      simp
  | succ k ih =>
    intro db fn fd fl hf hq hu
    have hmiss := flightGatedUpdate_misses db fl hu
    unfold acquire_quota
    split
    · next heq => rw [hf] at heq; exact absurd heq (by simp)
    · next flight heq =>
      rw [hf] at heq
      injection heq with heq2
      subst heq2
      rw [if_neg hq]
      show (if (flightGatedUpdate (quotaConflictEvent db fl.flight_id) fl.flight_id fl.version).2 = 0
          then acquire_quota (quotaConflictEvent db fl.flight_id) fn fd k
          else ((Except.ok fl),
            { quotaConflictEvent db fl.flight_id with
              flights := (flightGatedUpdate (quotaConflictEvent db fl.flight_id)
                fl.flight_id fl.version).1 })) = _
      rw [if_pos hmiss]
      have hf1 := findFlight_conflictEvent db fn fd fl hf
      have hu1 : ∀ g ∈ (quotaConflictEvent db fl.flight_id).flights,
          g.flight_id = ({ fl with version := fl.version + 2 } : FlightRow).flight_id →
          g = { fl with version := fl.version + 2 } := by
        intro g hg hgid
        simp only [quotaConflictEvent, updateFlights, List.mem_map] at hg
        obtain ⟨r, hr, hrg⟩ := hg
        by_cases hp : r.flight_id = fl.flight_id
        · have hrfl := hu r hr hp
          subst hrfl
          simp [hp] at hrg
          exact hrg.symm
        · simp [hp] at hrg
          subst hrg
          exact absurd hgid hp
      have hq1 : ({ fl with version := fl.version + 2 } : FlightRow).available_tickets ≠ 0 := hq
      rw [ih (quotaConflictEvent db fl.flight_id) fn fd _ hf1 hq1 hu1]
      have harith : fl.version + 2 + 2 * (k : Int) = fl.version + 2 * ((k + 1 : Nat) : Int) := by
        push_cast
        ring
      have hflights : ((quotaConflictEvent db fl.flight_id).flights.map (fun r =>
          if r.flight_id = ({ fl with version := fl.version + 2 } : FlightRow).flight_id
          then { r with available_tickets := r.available_tickets - 1,
                        version := r.version + 2 * (k : Int) + 1 }
          else r)) =
          db.flights.map (fun r =>
            if r.flight_id = fl.flight_id
            then { r with available_tickets := r.available_tickets - 1,
                          version := r.version + 2 * ((k + 1 : Nat) : Int) + 1 }
            else r) := by
        simp only [quotaConflictEvent, updateFlights, List.map_map]
        refine List.map_congr_left (fun r hr => ?_)
        simp only [Function.comp_apply]
        by_cases hp : r.flight_id = fl.flight_id
        · have hrfl := hu r hr hp
          subst hrfl
          have harith2 : r.version + 2 + 2 * (k : Int) + 1 =
              r.version + 2 * ((k + 1 : Nat) : Int) + 1 := by
            push_cast
            ring
          simp [hp, harith2]
        · simp [hp]
      simp only [quotaConflictEvent] at hflights ⊢
      rw [hflights, harith]

theorem find?_condMapP {α : Type} (l : List α) (P : α → Prop) [DecidablePred P]
    (q : α → Bool) (f : α → α)
    (hinv : ∀ a, q (if P a then f a else a) = q a) :
    (l.map (fun r => if P r then f r else r)).find? q =
      (l.find? q).map (fun r => if P r then f r else r) := by
  induction l with
  | nil => rfl
  | cons a l ih =>
    by_cases hqa : q a = true
    · have h2 : q (if P a then f a else a) = true := by rw [hinv a]; exact hqa
      simp [List.find?, hqa, h2]
    · have h2 : q (if P a then f a else a) = false := by
        rw [hinv a]; exact Bool.eq_false_iff.mpr (fun hc => hqa hc)
      simp only [List.map_cons, List.find?_cons, h2, hqa, cond_false]
      exact ih

/-- The gated decrement's committed state still lists the flight first under
`(flight_number, flight_date)`, with quota down one and version advanced. -/
theorem findFlight_decrementMap (db : DB) (fn fd : Int) (fl : FlightRow) (w : Int)
    (hf : findFlight db fn fd = some fl) :
    findFlight { db with flights := db.flights.map (fun r =>
        if r.flight_id = fl.flight_id
        then { r with available_tickets := r.available_tickets - 1,
                      version := r.version + w + 1 }
        else r) } fn fd =
      some { fl with available_tickets := fl.available_tickets - 1,
                     version := fl.version + w + 1 } := by
  simp only [findFlight]
  rw [find?_condMapP db.flights _ _ _ (fun a => by
    by_cases hh : a.flight_id = fl.flight_id <;> simp [hh])]
  have hf' : db.flights.find?
      (fun f => f.flight_number = fn && f.flight_date = fd) = some fl := hf
  rw [hf']
  simp

/-- A request for a seat that exists but is not Available is rejected on the
first read, identically for every conflict budget, with the store unchanged. -/
theorem book_seat_occupied (db : DB) (c fid ns : Int) (os : Option Int)
    (conflicts : Nat) (s : SeatRow) (hs : findSeat db fid ns = some s)
    (hb : s.seat_status ≠ SeatStatus.Available) :
    book_seat db c fid ns os conflicts =
      ((.error (.ValidationError "The new seat is already booked or unavailable")), db) := by
  cases conflicts <;> (unfold book_seat; rw [hs]; simp [hb])

/-- Characterization of the per-leg loop of `book_ticket` on success: the
responses extend the accumulator one per leg, and the final status is
"Confirmed" exactly when neither the incoming flag nor any processed leg
tripped the seat-failure condition. -/
theorem book_ticket_go_ok (legs : List FlightBookingRequest) :
    ∀ (db : DB) (user_id : Int) (envs : List LegEnv)
    (acc : List FlightBookingResponse) (flag : Bool)
    (r : TicketBookingResponse) (db2 : DB),
    book_ticket_go db user_id legs envs acc flag = ((.ok r), db2) →
    ∃ results : List FlightBookingResponse,
      r.flight_bookings = acc ++ results ∧
      results.length = legs.length ∧
      r.booking_status =
        (if (flag || (legs.zip results).any (fun p => legSeatFail p.1 p.2)) = false
         then "Confirmed" else softSeatStatus) := by
  induction legs with
  | nil =>
    intro db u envs acc flag r db2 h
    simp only [book_ticket_go, Prod.mk.injEq, Except.ok.injEq] at h
    obtain ⟨hr, _⟩ := h
    subst hr
    refine ⟨[], by simp, rfl, ?_⟩
    cases flag <;> simp [softSeatStatus]
  | cons leg rest ih =>
    intro db u envs acc flag r db2 h
    unfold book_ticket_go at h
    rcases hleg : book_ticket_for_flight db u leg (envs.headD defaultLegEnv) with ⟨res, dbn⟩
    rw [hleg] at h
    cases res with
    | error e =>
      exfalso
      dsimp only at h
      rcases hrev : revert_all dbn acc with ⟨rev, db3⟩
      rw [hrev] at h
      cases rev <;> simp at h
    | ok res =>
      dsimp only at h
      obtain ⟨results, h1, h2, h3⟩ := ih dbn u envs.tail (acc ++ [res])
        (flag || legSeatFail leg res) r db2 h
      refine ⟨res :: results, by rw [h1]; simp, by simp [h2], ?_⟩
      rw [h3]
      simp only [legSeatFail]
      congr 1
      simp [Bool.or_assoc]

/-- Under the success preconditions of the quota loop (flight found, no
duplicate ticket, quota left, insert succeeds) a leg booking returns `Ok`
even when the preferred-seat assignment fails. -/
theorem book_ticket_for_flight_seat_resilient (db : DB) (u : Int)
    (leg : FlightBookingRequest) (env : LegEnv) (fl : FlightRow)
    (hf : findFlight db leg.flight_number leg.flight_date = some fl)
    (hnodup : db.tickets.find? (fun t => t.customer_id = u
        && t.flight_number = leg.flight_number
        && t.flight_date = leg.flight_date) = none)
    (hq : fl.available_tickets ≠ 0)
    (hu : ∀ g ∈ db.flights, g.flight_id = fl.flight_id → g = fl)
    (hins : env.insert_fail = none) :
    (book_ticket_for_flight db u leg env).1.isOk = true := by
  have hacq := acquire_quota_spec env.quota_conflicts db leg.flight_number
    leg.flight_date fl hf hq hu
  rcases hres : book_ticket_for_flight db u leg env with ⟨res, dbn⟩
  cases res with
  | ok resp => rfl
  | error e =>
    exfalso
    simp only [book_ticket_for_flight, hf, hnodup, hacq, hins] at hres
    split at hres <;> try split at hres
    all_goals simp at hres

/-- A missing seat is rejected identically for every conflict budget, with
the store unchanged. -/
theorem book_seat_no_seat (db : DB) (c fid ns : Int) (os : Option Int) (k : Nat)
    (hs : findSeat db fid ns = none) :
    book_seat db c fid ns os k =
      ((.error (.ValidationError "The new seat is not found")), db) := by
  cases k <;> (unfold book_seat; rw [hs])

/-- After the conflict event bumped every row of the seat, the gated update
with the stale read version affects no row (all rows of the seat key agree
with the row read). -/
theorem seatGatedUpdate_misses (db : DB) (fid ns : Int) (s : SeatRow)
    (hu : ∀ s1 ∈ db.seats, s1.flight_id = fid → s1.seat_number = ns → s1 = s) :
    (seatGatedUpdate (seatConflictEvent db fid ns) fid ns s.version).2 = 0 := by
  simp only [seatGatedUpdate, seatConflictEvent, updateSeats, List.countP_eq_zero]
  intro a ha
  simp only [List.mem_map] at ha
  obtain ⟨r, hr, hra⟩ := ha
  by_cases hp : r.flight_id = fid ∧ r.seat_number = ns
  · have hrfl := hu r hr hp.1 hp.2
    subst hrfl
    simp [hp.1, hp.2] at hra
    subst hra
    simp
  · simp only [Bool.and_eq_true, decide_eq_true_eq] at hra
    rw [if_neg (by simpa using hp)] at hra
    subst hra
    intro hc
    simp only [Bool.and_eq_true, decide_eq_true_eq] at hc
    exact hp ⟨hc.1.1.1, hc.1.1.2⟩

/-- Full characterization of a successful `book_seat` on a store whose rows
for the target seat key all agree with the row read: after `k` conflicted
attempts the gated update lands; the new seat ends Booked with `version`
advanced by the `2*k` environment bumps plus our 1, the old seat (when one
is given and differs from the new one) ends Available with `version + 1`,
and every ticket of the customer on the flight points at the new seat. -/
theorem book_seat_success_spec (k : Nat) : ∀ (db : DB) (c fid ns : Int)
    (os : Option Int) (s : SeatRow),
    findSeat db fid ns = some s →
    s.seat_status = SeatStatus.Available →
    (∀ s1 ∈ db.seats, s1.flight_id = fid → s1.seat_number = ns → s1 = s) →
    os ≠ some ns →
    book_seat db c fid ns os k =
      ((.ok true),
       { db with
         seats := db.seats.map (fun r =>
           if r.flight_id = fid ∧ r.seat_number = ns
           then { r with seat_status := SeatStatus.Booked,
                         version := r.version + 2 * (k : Int) + 1 }
           else if r.flight_id = fid ∧ os = some r.seat_number
           then { r with seat_status := SeatStatus.Available,
                         version := r.version + 1 }
           else r),
         tickets := updateTickets db.tickets
           (fun t => t.customer_id = c && t.flight_id = fid)
           (fun t => { t with seat_number := some ns }) }) := by
  induction k with
  | zero =>
    intro db c fid ns os s hs hav hu hne
    have hhit := seatGatedUpdate_hits db fid ns s hs hav
    unfold book_seat
    rw [hs]
    dsimp only
    rw [if_neg (by simp [hav]), if_neg hhit]
    unfold book_seat_commit
    dsimp only
    simp only [Prod.mk.injEq, DB.mk.injEq, and_true, true_and]
    cases os with
    | none =>
      simp only [seatGatedUpdate, updateSeats]
      refine List.map_congr_left (fun r hr => ?_)
      by_cases hp : r.flight_id = fid ∧ r.seat_number = ns
      · have hrs := hu r hr hp.1 hp.2
        subst hrs
        simp [hp.1, hp.2, hav]
      · simp [hp]
    | some old =>
      have hon : old ≠ ns := fun hc => hne (by rw [hc])
      simp only [seatGatedUpdate, updateSeats, List.map_map]
      refine List.map_congr_left (fun r hr => ?_)
      simp only [Function.comp_apply]
      by_cases hp : r.flight_id = fid ∧ r.seat_number = ns
      · have hrs := hu r hr hp.1 hp.2
        subst hrs
        simp [hp.1, hp.2, hav, Ne.symm hon]
      · by_cases hq2 : r.flight_id = fid ∧ r.seat_number = old
        · simp [hp, hq2.1, hq2.2, hon]
        · have hq2c : ¬ (r.flight_id = fid ∧ old = r.seat_number) :=
            fun hc => hq2 ⟨hc.1, hc.2.symm⟩
          simp [hp, hq2, hq2c, hon]
  | succ k ih =>
    intro db c fid ns os s hs hav hu hne
    have hmiss := seatGatedUpdate_misses db fid ns s hu
    unfold book_seat
    rw [hs]
    dsimp only
    rw [if_neg (by simp [hav]), if_pos hmiss]
    have hs1 := findSeat_conflictEvent db fid ns s hs
    have hu1 : ∀ s1 ∈ (seatConflictEvent db fid ns).seats,
        s1.flight_id = fid → s1.seat_number = ns →
        s1 = { s with version := s.version + 2 } := by
      intro s1 hs1m hid hns
      simp only [seatConflictEvent, updateSeats, List.mem_map] at hs1m
      obtain ⟨r, hr, hrs1⟩ := hs1m
      by_cases hp : r.flight_id = fid ∧ r.seat_number = ns
      · have hrs := hu r hr hp.1 hp.2
        subst hrs
        simp [hp.1, hp.2] at hrs1 ⊢
        exact hrs1.symm
      · rw [if_neg (by simpa using hp)] at hrs1
        subst hrs1
        exact absurd ⟨hid, hns⟩ hp
    rw [ih (seatConflictEvent db fid ns) c fid ns os _ hs1 hav hu1 hne]
    simp only [seatConflictEvent, updateSeats, Prod.mk.injEq, DB.mk.injEq,
      and_true, true_and]
    rw [List.map_map]
    refine List.map_congr_left (fun r hr => ?_)
    simp only [Function.comp_apply]
    by_cases hp : r.flight_id = fid ∧ r.seat_number = ns
    · have hrs := hu r hr hp.1 hp.2
      subst hrs
      have harith : r.version + 2 + 2 * (k : Int) + 1 =
          r.version + 2 * ((k + 1 : Nat) : Int) + 1 := by
        push_cast
        ring
      simp [hp.1, hp.2, harith]
    · simp [hp]

theorem insertDateDesc_perm (x : HistoryRow) (l : List HistoryRow) :
    (insertDateDesc x l).Perm (x :: l) := by
  induction l with
  | nil => exact List.Perm.refl _
  | cons y ys ih =>
    unfold insertDateDesc
    by_cases h : y.flight_date ≤ x.flight_date
    · rw [if_pos h]
    · rw [if_neg h]
      exact (List.Perm.cons y ih).trans (List.Perm.swap x y ys)

theorem sortDateDesc_perm (l : List HistoryRow) : (sortDateDesc l).Perm l := by
  induction l with
  | nil => exact List.Perm.refl _
  | cons a l ih =>
    exact (insertDateDesc_perm a (sortDateDesc l)).trans (List.Perm.cons a ih)

theorem insertDateDesc_pairwise (x : HistoryRow) (l : List HistoryRow)
    (h : l.Pairwise (fun a b => b.flight_date ≤ a.flight_date)) :
    (insertDateDesc x l).Pairwise (fun a b => b.flight_date ≤ a.flight_date) := by
  induction l with
  | nil => simp [insertDateDesc]
  | cons y ys ih =>
    rcases List.pairwise_cons.mp h with ⟨hy, hys⟩
    unfold insertDateDesc
    by_cases hc : y.flight_date ≤ x.flight_date
    · rw [if_pos hc]
      refine List.pairwise_cons.mpr ⟨?_, h⟩
      intro b hb
      rcases List.mem_cons.mp hb with hb | hb
      · subst hb
        exact hc
      · exact le_trans (hy b hb) hc
    · rw [if_neg hc]
      refine List.pairwise_cons.mpr ⟨?_, ih hys⟩
      intro b hb
      rcases List.mem_cons.mp ((insertDateDesc_perm x ys).mem_iff.mp hb) with hb2 | hb2
      · subst hb2
        exact le_of_not_le hc
      · exact hy b hb2

theorem sortDateDesc_pairwise (l : List HistoryRow) :
    (sortDateDesc l).Pairwise (fun a b => b.flight_date ≤ a.flight_date) := by
  induction l with
  | nil => simp [sortDateDesc]
  | cons a l ih => exact insertDateDesc_pairwise a (sortDateDesc l) ih

theorem sum_map_one {α : Type} (l : List α) :
    (l.map (fun _ => (1 : Nat))).sum = l.length := by
  induction l with
  | nil => rfl
  | cons a l ih =>
    simp only [List.map_cons, List.sum_cons, ih, List.length_cons]
    omega

/-- Under referential integrity (each ticket's flight id matches exactly one
flight row, whose number matches exactly one route row) the history join has
one row per ticket of the customer. -/
theorem history_join_length (db : DB) (user_id : Int)
    (href : ∀ t ∈ db.tickets, t.customer_id = user_id →
      (db.flights.filter (fun f => f.flight_id = t.flight_id)).length = 1 ∧
      ∀ f ∈ db.flights.filter (fun f => f.flight_id = t.flight_id),
        (db.routes.filter (fun r => r.flight_number = f.flight_number)).length = 1) :
    (history_join db user_id).length =
      (db.tickets.filter (fun t => t.customer_id = user_id)).length := by
  unfold history_join
  rw [List.length_flatMap]
  have hpt : ∀ t ∈ db.tickets.filter (fun t => t.customer_id = user_id),
      ((db.flights.filter (fun f => f.flight_id = t.flight_id)).flatMap (fun f =>
        (db.routes.filter (fun r => r.flight_number = f.flight_number)).map (fun r =>
          ({ flight_number := f.flight_number, seat_number := t.seat_number,
             departure_city := r.departure_city,
             destination_city := r.destination_city, flight_date := f.flight_date,
             departure_time := r.departure_time,
             arrival_time := r.arrival_time } : HistoryRow)))).length = 1 := by
    intro t ht
    rw [List.mem_filter] at ht
    obtain ⟨h1, h2⟩ := href t ht.1 (by simpa using ht.2)
    rw [List.length_flatMap]
    obtain ⟨f0, hf0⟩ := List.length_eq_one.mp h1
    have hf0mem : f0 ∈ db.flights.filter (fun f => f.flight_id = t.flight_id) := by
      rw [hf0]
      exact List.mem_singleton.mpr rfl
    have hr1 := h2 f0 hf0mem
    rw [hf0]
    simp [hr1]
  simp only [Function.comp_def]
  rw [List.map_congr_left hpt]
  exact sum_map_one _

theorem countP_set_of_get? {α : Type} (p : α → Bool) :
    ∀ (l : List α) (i : Nat) (a b : α), l.get? i = some a →
    (l.set i b).countP p + (if p a then 1 else 0) =
      l.countP p + (if p b then 1 else 0) := by
  intro l
  induction l with
  | nil =>
    intro i a b h
    simp at h
  | cons x xs ih =>
    intro i a b h
    cases i with
    | zero =>
      simp only [List.get?] at h
      injection h with h
      subst h
      by_cases hpb : p b = true <;> by_cases hpx : p x = true <;>
        simp [List.countP_cons, hpb, hpx]
    | succ i =>
      simp only [List.get?] at h
      have hih := ih i a b h
      by_cases hpx : p x = true <;>
        simp [List.countP_cons, hpx] <;> omega

theorem countP_replicate_zero {α : Type} (p : α → Bool) (a : α) (h : p a = false)
    (n : Nat) : (List.replicate n a).countP p = 0 := by
  induction n with
  | zero => rfl
  | succ n ih => simp [List.replicate_succ, List.countP_cons, h, ih]

/-- The initial state satisfies the invariant. -/
theorem quotaInit_inv (Q v0 : Int) (n : Nat) (hQ : 0 ≤ Q) :
    QuotaInv Q v0 n (quotaInit Q v0 n) := by
  have hsucc : succCount (List.replicate n AttSt.running) = 0 :=
    countP_replicate_zero _ _ (by decide) n
  refine ⟨List.length_replicate n _, hQ, ?_, ?_, ?_, ?_, ?_⟩
  · simp [quotaInit, hsucc]
  · simp [quotaInit, hsucc]
  · intro a v hmem
    have := List.eq_of_mem_replicate hmem
    exact absurd this (by simp)
  · rintro ⟨st, hmem, hfail⟩
    have := List.eq_of_mem_replicate hmem
    subst this
    exact absurd hfail (by decide)
  · intro e hmem
    have := List.eq_of_mem_replicate hmem
    exact absurd this (by simp)

/-- Every atomic store operation preserves the invariant. -/
theorem quotaStep_inv (Q v0 : Int) (n : Nat) (s : QuotaSys) (i : Nat)
    (h : QuotaInv Q v0 n s) : QuotaInv Q v0 n (quotaStep s i) := by
  obtain ⟨hlen, hpos, hsum, hver, hready, hfail0, hmsg⟩ := h
  unfold quotaStep
  cases hget : s.atts.get? i with
  | none => exact ⟨hlen, hpos, hsum, hver, hready, hfail0, hmsg⟩
  | some st =>
    cases st with
    | running =>
      dsimp only
      by_cases hz : s.avail = 0
      · rw [if_pos hz]
        have hcnt := countP_set_of_get? (fun a => a = AttSt.succeeded) s.atts i
          AttSt.running (AttSt.failed
            (AppError.ValidationError "This flight is fully booked.")) hget
        simp only [decide_eq_true_eq] at hcnt
        rw [if_neg (by decide), if_neg (by decide)] at hcnt
        have hsc : succCount (s.atts.set i (AttSt.failed
            (AppError.ValidationError "This flight is fully booked."))) =
            succCount s.atts := by
          unfold succCount
          omega
        refine ⟨by simp [hlen], hpos, by simp only [hsc]; exact hsum,
          by simp only [hsc]; exact hver, ?_, fun _ => hz, ?_⟩
        · intro a v hmem
          rcases List.mem_or_eq_of_mem_set hmem with hmem | hmem
          · exact hready a v hmem
          · exact absurd hmem (by simp)
        · intro e hmem
          rcases List.mem_or_eq_of_mem_set hmem with hmem | hmem
          · exact hmsg e hmem
          · exact AttSt.failed.inj hmem
      · rw [if_neg hz]
        have hcnt := countP_set_of_get? (fun a => a = AttSt.succeeded) s.atts i
          AttSt.running (AttSt.ready s.avail s.ver) hget
        simp only [decide_eq_true_eq] at hcnt
        rw [if_neg (by decide), if_neg (by simp)] at hcnt
        have hsc : succCount (s.atts.set i (AttSt.ready s.avail s.ver)) =
            succCount s.atts := by
          unfold succCount
          omega
        refine ⟨by simp [hlen], hpos, by simp only [hsc]; exact hsum,
          by simp only [hsc]; exact hver, ?_, ?_, ?_⟩
        · intro a v hmem
          rcases List.mem_or_eq_of_mem_set hmem with hmem | hmem
          · exact hready a v hmem
          · injection hmem with h1 h2
            subst h1
            subst h2
            exact ⟨by omega, by omega⟩
        · rintro ⟨st, hmem, hfail⟩
          rcases List.mem_or_eq_of_mem_set hmem with hmem | hmem
          · exact hfail0 ⟨st, hmem, hfail⟩
          · subst hmem
            exact Bool.noConfusion hfail
        · intro e hmem
          rcases List.mem_or_eq_of_mem_set hmem with hmem | hmem
          · exact hmsg e hmem
          · exact absurd hmem (by simp)
    | ready a v =>
      dsimp only
      by_cases hv : s.ver = v
      · rw [if_pos hv]
        have hmem0 : AttSt.ready a v ∈ s.atts := List.get?_mem hget
        obtain ⟨hapos, haq⟩ := hready a v hmem0
        have hcnt := countP_set_of_get? (fun x => x = AttSt.succeeded) s.atts i
          (AttSt.ready a v) AttSt.succeeded hget
        simp only [decide_eq_true_eq] at hcnt
        rw [if_neg (by simp), if_pos (by decide)] at hcnt
        have hsc : succCount (s.atts.set i AttSt.succeeded) =
            succCount s.atts + 1 := by
          unfold succCount
          omega
        have havail : s.avail = a := by omega
        refine ⟨by simp [hlen], by show (0:Int) ≤ s.avail - 1; omega, ?_, ?_, ?_, ?_, ?_⟩
        · show s.avail - 1 + (succCount (s.atts.set i AttSt.succeeded) : Int) = Q
          rw [hsc]
          push_cast
          omega
        · show s.ver + 1 = v0 + (succCount (s.atts.set i AttSt.succeeded) : Int)
          rw [hsc]
          push_cast
          omega
        · intro a2 v2 hmem
          rcases List.mem_or_eq_of_mem_set hmem with hmem | hmem
          · exact hready a2 v2 hmem
          · exact absurd hmem (by simp)
        · rintro ⟨st, hmem, hfail⟩
          rcases List.mem_or_eq_of_mem_set hmem with hmem | hmem
          · have h0 := hfail0 ⟨st, hmem, hfail⟩
            exfalso
            omega
          · subst hmem
            exact Bool.noConfusion hfail
        · intro e hmem
          rcases List.mem_or_eq_of_mem_set hmem with hmem | hmem
          · exact hmsg e hmem
          · exact absurd hmem (by simp)
      · rw [if_neg hv]
        have hcnt := countP_set_of_get? (fun x => x = AttSt.succeeded) s.atts i
          (AttSt.ready a v) AttSt.running hget
        simp only [decide_eq_true_eq] at hcnt
        rw [if_neg (by simp), if_neg (by decide)] at hcnt
        have hsc : succCount (s.atts.set i AttSt.running) = succCount s.atts := by
          unfold succCount
          omega
        refine ⟨by simp [hlen], hpos, by simp only [hsc]; exact hsum,
          by simp only [hsc]; exact hver, ?_, ?_, ?_⟩
        · intro a2 v2 hmem
          rcases List.mem_or_eq_of_mem_set hmem with hmem | hmem
          · exact hready a2 v2 hmem
          · exact absurd hmem (by simp)
        · rintro ⟨st, hmem, hfail⟩
          rcases List.mem_or_eq_of_mem_set hmem with hmem | hmem
          · exact hfail0 ⟨st, hmem, hfail⟩
          · subst hmem
            exact Bool.noConfusion hfail
        · intro e hmem
          rcases List.mem_or_eq_of_mem_set hmem with hmem | hmem
          · exact hmsg e hmem
          · exact absurd hmem (by simp)
    | succeeded => exact ⟨hlen, hpos, hsum, hver, hready, hfail0, hmsg⟩
    | failed e => exact ⟨hlen, hpos, hsum, hver, hready, hfail0, hmsg⟩

/-- The invariant holds after any schedule. -/
theorem quotaRun_inv (Q v0 : Int) (n : Nat) (hQ : 0 ≤ Q) (sched : List Nat) :
    QuotaInv Q v0 n (quotaRun (quotaInit Q v0 n) sched) := by
  suffices h : ∀ (s : QuotaSys), QuotaInv Q v0 n s →
      QuotaInv Q v0 n (quotaRun s sched) from
    h _ (quotaInit_inv Q v0 n hQ)
  induction sched with
  | nil => intro s hs; exact hs
  | cons i rest ih =>
    intro s hs
    exact ih _ (quotaStep_inv Q v0 n s i hs)

/-- Any step that changes `avail` is a version-gated decrement by a caller
whose read version equals the current version. -/
theorem quotaStep_dec_guard (s : QuotaSys) (i : Nat)
    (hne : (quotaStep s i).avail ≠ s.avail) :
    ∃ a v, s.atts.get? i = some (AttSt.ready a v) ∧ v = s.ver ∧
      (quotaStep s i).avail = s.avail - 1 ∧ (quotaStep s i).ver = s.ver + 1 := by
  unfold quotaStep at hne ⊢
  cases hget : s.atts.get? i with
  | none =>
    rw [hget] at hne
    exact absurd rfl hne
  | some st =>
    rw [hget] at hne
    cases st with
    | running =>
      dsimp only at hne ⊢
      by_cases hz : s.avail = 0
      · rw [if_pos hz] at hne
        exact absurd rfl hne
      · rw [if_neg hz] at hne
        exact absurd rfl hne
    | ready a v =>
      dsimp only at hne ⊢
      by_cases hv : s.ver = v
      · rw [if_pos hv] at hne ⊢
        exact ⟨a, v, rfl, hv.symm, rfl, rfl⟩
      · rw [if_neg hv] at hne
        exact absurd rfl hne
    | succeeded => exact absurd rfl hne
    | failed e => exact absurd rfl hne

/-- In a list of terminated attempt states, every attempt either succeeded
or failed, so the two counts exhaust the list. -/
theorem succ_add_fail (atts : List AttSt)
    (h : ∀ st ∈ atts, st.terminated = true) :
    succCount atts + failCount atts = atts.length := by
  induction atts with
  | nil => rfl
  | cons a l ih =>
    have ha := h a (List.mem_cons_self a l)
    have hl := ih (fun st hst => h st (List.mem_cons_of_mem a hst))
    cases a with
    | running => exact Bool.noConfusion ha
    | ready x y => exact Bool.noConfusion ha
    | succeeded =>
      simp [succCount, failCount, List.countP_cons, AttSt.isFailed] at hl ⊢
      omega
    | failed e =>
      simp [succCount, failCount, List.countP_cons, AttSt.isFailed] at hl ⊢
      omega

/-! ## Claim theorems -/

/-- C2: in the interleaving model of the OCC quota loop — any number of
concurrent `book_ticket_for_flight` loop executions against one flight with
initial quota Q ≥ 0, interleaved by an arbitrary schedule of atomic store
operations — `available_tickets` never goes negative; the only step that
changes it is the conditional decrement of a caller whose version check
equals the version it read (advancing `version` with it); and once every
caller has returned, with more callers than Q, exactly Q acquisitions
succeeded, `available_tickets` is 0, `version` advanced by exactly Q, and
the remaining callers failed with the fully-booked ValidationError. -/
theorem quota_no_oversell (Q v0 : Int) (n : Nat) (hQ : 0 ≤ Q) (sched : List Nat) :
    0 ≤ (quotaRun (quotaInit Q v0 n) sched).avail ∧
    (∀ i, (quotaStep (quotaRun (quotaInit Q v0 n) sched) i).avail ≠
        (quotaRun (quotaInit Q v0 n) sched).avail →
      ∃ a v, (quotaRun (quotaInit Q v0 n) sched).atts.get? i =
          some (AttSt.ready a v) ∧
        v = (quotaRun (quotaInit Q v0 n) sched).ver ∧
        (quotaStep (quotaRun (quotaInit Q v0 n) sched) i).avail =
          (quotaRun (quotaInit Q v0 n) sched).avail - 1 ∧
        (quotaStep (quotaRun (quotaInit Q v0 n) sched) i).ver =
          (quotaRun (quotaInit Q v0 n) sched).ver + 1) ∧
    ((∀ st ∈ (quotaRun (quotaInit Q v0 n) sched).atts, st.terminated = true) →
      Q < (n : Int) →
      (succCount (quotaRun (quotaInit Q v0 n) sched).atts : Int) = Q ∧
      (quotaRun (quotaInit Q v0 n) sched).avail = 0 ∧
      (quotaRun (quotaInit Q v0 n) sched).ver = v0 + Q ∧
      (failCount (quotaRun (quotaInit Q v0 n) sched).atts : Int) = (n : Int) - Q ∧
      (∀ e, AttSt.failed e ∈ (quotaRun (quotaInit Q v0 n) sched).atts →
        e = AppError.ValidationError "This flight is fully booked.")) := by
  obtain ⟨hlen, hpos, hsum, hver, hready, hfail0, hmsg⟩ := quotaRun_inv Q v0 n hQ sched
  refine ⟨hpos, fun i => quotaStep_dec_guard _ i, ?_⟩
  intro hterm hQn
  have htot := succ_add_fail _ hterm
  have hsuccle : (succCount (quotaRun (quotaInit Q v0 n) sched).atts : Int) ≤ Q := by
    omega
  by_cases hfc : failCount (quotaRun (quotaInit Q v0 n) sched).atts = 0
  · exfalso
    omega
  · have hex : ∃ st ∈ (quotaRun (quotaInit Q v0 n) sched).atts,
        st.isFailed = true := by
      have hpos2 : 0 < (quotaRun (quotaInit Q v0 n) sched).atts.countP
          (fun a => a.isFailed) := Nat.pos_of_ne_zero hfc
      exact List.countP_pos_iff.mp hpos2
    have h0 := hfail0 hex
    refine ⟨by omega, h0, by omega, by omega, hmsg⟩

/-- Witness for C2: quota 1, two concurrent callers, schedule: caller 0
reads, caller 0's gated decrement lands, caller 1 reads zero and fails. -/
theorem quota_no_oversell_witness :
    (0 : Int) ≤ 1 ∧
    (∀ st ∈ (quotaRun (quotaInit 1 0 2) [0, 0, 1]).atts, st.terminated = true) ∧
    (1 : Int) < (2 : Nat) ∧
    (succCount (quotaRun (quotaInit 1 0 2) [0, 0, 1]).atts : Int) = 1 ∧
    (quotaRun (quotaInit 1 0 2) [0, 0, 1]).avail = 0 ∧
    (quotaRun (quotaInit 1 0 2) [0, 0, 1]).ver = 0 + 1 ∧
    (failCount (quotaRun (quotaInit 1 0 2) [0, 0, 1]).atts : Int) = (2 : Nat) - 1 := by
  have h := (quota_no_oversell 1 0 2 (by decide) [0, 0, 1]).2.2 (by decide) (by decide)
  exact ⟨by decide, by decide, by decide, h.1, h.2.1, h.2.2.1, h.2.2.2.1⟩

/-- C3 counterexample: with 3 transient version conflicts the seat-assignment
loop does not stop after a 3-attempt budget with a Conflict("failed after
maximum retries") error — the fourth attempt simply succeeds. -/
theorem book_seat_budget_counterexample :
    (book_seat seatDb 7 1 5 none 3).1 = .ok true ∧
    resultConflict (book_seat seatDb 7 1 5 none 3).1 = false := by decide

/-- C3 (amended): `book_seat` retries transient conflicts (zero rows affected
by the version-gated update) in an unbounded loop — for every finite number
`k` of transient conflicts it rolls back, backs off and retries, terminating
with success once an attempt's gated update lands; no retry budget exists
and no Conflict ("failed after maximum retries") error is ever surfaced. -/
theorem book_seat_unbounded_retry (db : DB) (c fid ns : Int) (os : Option Int)
    (k : Nat) (s : SeatRow) (hs : findSeat db fid ns = some s)
    (hav : s.seat_status = SeatStatus.Available) :
    (book_seat db c fid ns os k).1 = .ok true ∧
    resultConflict (book_seat db c fid ns os k).1 = false :=
  ⟨book_seat_succeeds k db c fid ns os s hs hav,
   book_seat_no_conflict_error k db c fid ns os⟩

/-- Witness for C3 at a concrete store with 5 transient conflicts. -/
theorem book_seat_unbounded_retry_witness :
    findSeat seatDb 1 5 = some ⟨1, 5, SeatStatus.Available, 0⟩ ∧
    ((book_seat seatDb 7 1 5 none 5).1 = .ok true ∧
     resultConflict (book_seat seatDb 7 1 5 none 5).1 = false) :=
  ⟨by decide, book_seat_unbounded_retry seatDb 7 1 5 none 5
    ⟨1, 5, SeatStatus.Available, 0⟩ (by decide) (by decide)⟩

/-- C4 counterexample: at a store where seat 5 of flight 1 is Booked,
`book_seat` rejects with the `ValidationError` "The new seat is already
booked or unavailable" — not with a `Conflict` error as the claim states. -/
theorem book_seat_occupied_counterexample :
    book_seat bookedSeatDb 7 1 5 none 0 =
      ((.error (.ValidationError "The new seat is already booked or unavailable")), bookedSeatDb) ∧
    resultConflict (book_seat bookedSeatDb 7 1 5 none 0).1 = false := by decide

/-- C4 (amended): a request for a seat whose status is Booked or Unavailable
is rejected with the `ValidationError` "The new seat is already booked or
unavailable" as a terminal business rejection: the result is identical for
every conflict budget (no retry happens on this path), the store is
unchanged, and the error is not the retried-and-never-surfaced transient
version-mismatch conflict. -/
theorem book_seat_occupied_rejected (db : DB) (c fid ns : Int) (os : Option Int)
    (conflicts : Nat) (s : SeatRow) (hs : findSeat db fid ns = some s)
    (hb : s.seat_status ≠ SeatStatus.Available) :
    book_seat db c fid ns os conflicts =
      ((.error (.ValidationError "The new seat is already booked or unavailable")), db) ∧
    resultConflict (book_seat db c fid ns os conflicts).1 = false := by
  have h := book_seat_occupied db c fid ns os conflicts s hs hb
  exact ⟨h, by rw [h]; rfl⟩

/-- C5: whenever every leg's ticket acquisition succeeds, `book_ticket`
returns `Ok` even if some preferred-seat assignment fails: a leg booking
never errors because of its seat (last conjunct, for any leg satisfying the
acquisition preconditions), a failed-seat leg is reported as booked with no
seat, the response carries one booking per requested leg, and
`booking_status` is the exact string "Confirmed" iff every leg that
requested a preferred seat actually received one, the soft-warning string
otherwise. -/
theorem book_ticket_ok_status (db : DB) (user_id : Int)
    (request : TicketBookingRequest) (envs : List LegEnv)
    (r : TicketBookingResponse) (db2 : DB)
    (h : book_ticket db user_id request envs = ((.ok r), db2))
    (dbL : DB) (uL : Int) (leg : FlightBookingRequest) (envL : LegEnv) (fl : FlightRow)
    (hf : findFlight dbL leg.flight_number leg.flight_date = some fl)
    (hnodup : dbL.tickets.find? (fun t => t.customer_id = uL
        && t.flight_number = leg.flight_number
        && t.flight_date = leg.flight_date) = none)
    (hq : fl.available_tickets ≠ 0)
    (hu : ∀ g ∈ dbL.flights, g.flight_id = fl.flight_id → g = fl)
    (hins : envL.insert_fail = none) :
    r.flight_bookings.length = request.flights.length ∧
    (r.booking_status = "Confirmed" ∨ r.booking_status = softSeatStatus) ∧
    (r.booking_status = "Confirmed" ↔
      (request.flights.zip r.flight_bookings).all
        (fun p => !(legSeatFail p.1 p.2)) = true) ∧
    (book_ticket_for_flight dbL uL leg envL).1.isOk = true := by
  have hres := book_ticket_for_flight_seat_resilient dbL uL leg envL fl hf hnodup hq hu hins
  obtain ⟨results, h1, h2, h3⟩ :=
    book_ticket_go_ok request.flights db user_id envs [] false r db2 h
  simp only [List.nil_append] at h1
  subst h1
  simp only [Bool.false_or] at h3
  cases hz : (request.flights.zip r.flight_bookings).any
      (fun p => legSeatFail p.1 p.2) with
  | false =>
    simp only [hz] at h3
    simp only [if_pos] at h3
    refine ⟨h2, Or.inl h3, ?_, hres⟩
    rw [h3]
    simp only [true_iff]
    simp only [List.all_eq_true]
    intro x hx
    have hfx := List.any_eq_false.mp hz x hx
    simpa using hfx
  | true =>
    simp only [hz] at h3
    simp only [Bool.true_eq_false, if_neg, if_false] at h3
    refine ⟨h2, Or.inr h3, ?_, hres⟩
    rw [h3]
    constructor
    · intro hcontra
      exact absurd hcontra (by decide)
    · intro hall
      exfalso
      have : (request.flights.zip r.flight_bookings).any
          (fun p => legSeatFail p.1 p.2) = false := by
        apply List.any_eq_false.mpr
        intro x hx
        have hx2 := List.all_eq_true.mp hall x hx
        simpa using hx2
      rw [this] at hz
      exact absurd hz (by decide)

/-- Witness for C5: a one-leg booking whose preferred seat (5) is already
Booked: the booking succeeds with the soft-warning status and the leg
reported without a seat; the resilience conjunct is exercised at a second
concrete store. -/
theorem book_ticket_ok_status_witness :
    book_ticket bookedSeatDb 3 ⟨[⟨101, 10, some 5⟩]⟩ [] =
      ((.ok ⟨[⟨2, "Flight 101 on 10", none⟩], softSeatStatus⟩),
       ⟨[⟨1, 101, 10, 2, 1⟩], [⟨1, 5, SeatStatus.Booked, 4⟩],
        [⟨1, 7, 1, none, 10, 101⟩, ⟨2, 3, 1, none, 10, 101⟩], [], 3⟩) ∧
    (((⟨[⟨2, "Flight 101 on 10", none⟩], softSeatStatus⟩ :
        TicketBookingResponse)).flight_bookings.length =
      ((⟨[⟨101, 10, some 5⟩]⟩ : TicketBookingRequest)).flights.length ∧
     ((softSeatStatus : String) = "Confirmed" ∨ (softSeatStatus : String) = softSeatStatus) ∧
     ((softSeatStatus : String) = "Confirmed" ↔
      (((⟨[⟨101, 10, some 5⟩]⟩ : TicketBookingRequest)).flights.zip
        ((⟨[⟨2, "Flight 101 on 10", none⟩], softSeatStatus⟩ :
          TicketBookingResponse)).flight_bookings).all
        (fun p => !(legSeatFail p.1 p.2)) = true) ∧
     (book_ticket_for_flight twoLegDb 3 ⟨101, 10, none⟩ defaultLegEnv).1.isOk = true) := by
  refine ⟨by decide, ?_⟩
  exact book_ticket_ok_status bookedSeatDb 3 ⟨[⟨101, 10, some 5⟩]⟩ []
    ⟨[⟨2, "Flight 101 on 10", none⟩], softSeatStatus⟩
    ⟨[⟨1, 101, 10, 2, 1⟩], [⟨1, 5, SeatStatus.Booked, 4⟩],
     [⟨1, 7, 1, none, 10, 101⟩, ⟨2, 3, 1, none, 10, 101⟩], [], 3⟩
    (by decide) twoLegDb 3 ⟨101, 10, none⟩ defaultLegEnv ⟨1, 101, 10, 1, 0⟩
    (by decide) (by decide) (by decide) (by decide) rfl

/-- C7: a seat-only request is atomic at the store: it either fails (missing
flight, no ticket held, same-seat rebooking, missing seat, occupied seat, or
the claim's other error cases) with the store returned exactly as it was, or
it succeeds and in one committed transaction the new seat becomes Booked
with its version advanced, the old seat (when the ticket held one) becomes
Available with version + 1, and every ticket of the customer on the flight
points at the new seat — flights, routes and the id counter untouched.
Stated over stores whose seat rows are keyed uniquely by
(flight_id, seat_number), as the schema's primary key guarantees. -/
theorem book_seat_for_ticket_atomic (db : DB) (c : Int) (req : SeatBookingRequest)
    (k : Nat)
    (husq : ∀ s1 ∈ db.seats, ∀ s2 ∈ db.seats, s1.flight_id = s2.flight_id →
      s1.seat_number = s2.seat_number → s1 = s2) :
    (∀ e db2, book_seat_for_ticket db c req k = ((.error e), db2) → db2 = db) ∧
    (∀ fl ticket s,
      findFlight db req.flight_number req.flight_date = some fl →
      db.tickets.find? (fun t => t.customer_id = c
        && t.flight_id = fl.flight_id) = some ticket →
      ticket.seat_number ≠ some req.seat_number →
      findSeat db fl.flight_id req.seat_number = some s →
      s.seat_status = SeatStatus.Available →
      book_seat_for_ticket db c req k =
        ((.ok true),
         { db with
           seats := db.seats.map (fun r =>
             if r.flight_id = fl.flight_id ∧ r.seat_number = req.seat_number
             then { r with seat_status := SeatStatus.Booked,
                           version := r.version + 2 * (k : Int) + 1 }
             else if r.flight_id = fl.flight_id ∧ ticket.seat_number = some r.seat_number
             then { r with seat_status := SeatStatus.Available,
                           version := r.version + 1 }
             else r),
           tickets := updateTickets db.tickets
             (fun t => t.customer_id = c && t.flight_id = fl.flight_id)
             (fun t => { t with seat_number := some req.seat_number }) })) := by
  constructor
  · intro e db2 h
    unfold book_seat_for_ticket at h
    split at h
    · simp only [Prod.mk.injEq] at h
      exact h.2.symm
    · next fl heqf =>
      split at h
      · simp only [Prod.mk.injEq] at h
        exact h.2.symm
      · next ticket heqt =>
        split at h
        · simp only [Prod.mk.injEq] at h
          exact h.2.symm
        · cases hseat : findSeat db fl.flight_id req.seat_number with
          | none =>
            rw [book_seat_no_seat db c fl.flight_id req.seat_number
              ticket.seat_number k hseat] at h
            simp only [Prod.mk.injEq] at h
            exact h.2.symm
          | some s =>
            by_cases hav : s.seat_status = SeatStatus.Available
            · have hsucc := book_seat_succeeds k db c fl.flight_id req.seat_number
                ticket.seat_number s hseat hav
              rw [h] at hsucc
              simp at hsucc
            · rw [book_seat_occupied db c fl.flight_id req.seat_number
                ticket.seat_number k s hseat hav] at h
              simp only [Prod.mk.injEq] at h
              exact h.2.symm
  · intro fl ticket s hf ht hneq hs hav
    have hu1 : ∀ s1 ∈ db.seats, s1.flight_id = fl.flight_id →
        s1.seat_number = req.seat_number → s1 = s := by
      intro s1 h1 h2 h3
      have hmem := List.mem_of_find?_eq_some hs
      have hpred := List.find?_some hs
      simp only [Bool.and_eq_true, decide_eq_true_eq] at hpred
      exact husq s1 h1 s hmem (by rw [h2, hpred.1]) (by rw [h3, hpred.2])
    have hbs := book_seat_success_spec k db c fl.flight_id req.seat_number
      ticket.seat_number s hs hav hu1 hneq
    simp only [book_seat_for_ticket, hf, ht]
    rw [if_neg hneq]
    exact hbs

/-- Witness for C7: a seat-only success at a concrete store with 2 transient
conflicts (seat 5 ends Booked at version 5 = 0 + 2·2 + 1, the customer's
ticket points at it), plus the error case of a missing seat (store
unchanged). -/
theorem book_seat_for_ticket_atomic_witness :
    book_seat_for_ticket seatDb 7 ⟨101, 10, 5⟩ 2 =
      ((.ok true),
       ⟨[⟨1, 101, 10, 3, 0⟩], [⟨1, 5, SeatStatus.Booked, 5⟩],
        [⟨1, 7, 1, some 5, 10, 101⟩], [], 2⟩) ∧
    (book_seat_for_ticket seatDb 7 ⟨101, 10, 99⟩ 0).2 = seatDb := by
  constructor
  · have h := (book_seat_for_ticket_atomic seatDb 7 ⟨101, 10, 5⟩ 2 (by decide)).2
      ⟨1, 101, 10, 3, 0⟩ ⟨1, 7, 1, none, 10, 101⟩ ⟨1, 5, SeatStatus.Available, 0⟩
      (by decide) (by decide) (by decide) (by decide) (by decide)
    rw [h]
    decide
  · exact (book_seat_for_ticket_atomic seatDb 7 ⟨101, 10, 99⟩ 0 (by decide)).1
      (.ValidationError "The new seat is not found")
      (book_seat_for_ticket seatDb 7 ⟨101, 10, 99⟩ 0).2 (by decide)

/-- C8: `get_history` mutates nothing and returns exactly the rendered rows
of the Ticket × Flight × FlightRoute join for the customer — one row per
ticket under referential integrity — ordered by flight date descending,
with each row the rendering of a join row: the seat as its number when the
ticket has one and the string "Not Selected" when it has none. -/
theorem get_history_spec (db : DB) (user_id : Int)
    (href : ∀ t ∈ db.tickets, t.customer_id = user_id →
      (db.flights.filter (fun f => f.flight_id = t.flight_id)).length = 1 ∧
      ∀ f ∈ db.flights.filter (fun f => f.flight_id = t.flight_id),
        (db.routes.filter (fun r => r.flight_number = f.flight_number)).length = 1) :
    (get_history db user_id).2 = db ∧
    ((get_history db user_id).1.flights).Perm
      ((history_join db user_id).map render_history_row) ∧
    ((get_history db user_id).1.flights).Pairwise
      (fun a b => b.flight_date ≤ a.flight_date) ∧
    ((get_history db user_id).1.flights).length =
      (db.tickets.filter (fun t => t.customer_id = user_id)).length ∧
    (∀ d ∈ (get_history db user_id).1.flights, ∃ hr ∈ history_join db user_id,
      d = render_history_row hr ∧
      ((hr.seat_number = none ∧ d.seat_number = "Not Selected") ∨
       (∃ sn, hr.seat_number = some sn ∧ d.seat_number = toString sn))) := by
  refine ⟨rfl, ?_, ?_, ?_, ?_⟩
  · exact (sortDateDesc_perm (history_join db user_id)).map render_history_row
  · show ((sortDateDesc (history_join db user_id)).map render_history_row).Pairwise _
    refine List.Pairwise.map render_history_row ?_
      (sortDateDesc_pairwise (history_join db user_id))
    intro a b hab
    exact hab
  · show ((sortDateDesc (history_join db user_id)).map render_history_row).length = _
    rw [List.length_map, (sortDateDesc_perm (history_join db user_id)).length_eq]
    exact history_join_length db user_id href
  · intro d hd
    have hd2 : d ∈ (sortDateDesc (history_join db user_id)).map render_history_row := hd
    obtain ⟨hr, hhr, hrend⟩ := List.mem_map.mp hd2
    refine ⟨hr, (sortDateDesc_perm (history_join db user_id)).mem_iff.mp hhr,
      hrend.symm, ?_⟩
    cases hsn : hr.seat_number with
    | none =>
      left
      refine ⟨rfl, ?_⟩
      rw [← hrend]
      simp [render_history_row, hsn]
    | some sn =>
      right
      refine ⟨sn, rfl, ?_⟩
      rw [← hrend]
      simp [render_history_row, hsn]

/-- Witness for C8 at a concrete two-ticket store: the response is returned
with the store untouched, rows are date-descending, one row per ticket. -/
theorem get_history_spec_witness :
    (get_history histDb 3).2 = histDb ∧
    ((get_history histDb 3).1.flights).Pairwise
      (fun a b => b.flight_date ≤ a.flight_date) ∧
    ((get_history histDb 3).1.flights).length =
      (histDb.tickets.filter (fun t => t.customer_id = 3)).length := by
  have h := get_history_spec histDb 3 (by decide)
  exact ⟨h.1, h.2.2.1, h.2.2.2.1⟩

/-- C9: the Ticket row insertion happens only after the transaction holding
the quota decrement has committed, outside any shared transaction: when the
`INSERT INTO ticket` fails, `book_ticket_for_flight` returns the store error
while the flight's `available_tickets` stays decremented (version advanced)
and no Ticket row exists — the quota is not restored on this error path. -/
theorem insert_failure_keeps_quota_decremented (db : DB) (user_id : Int)
    (request : FlightBookingRequest) (qc : Nat) (msg : String) (fl : FlightRow)
    (hf : findFlight db request.flight_number request.flight_date = some fl)
    (hnodup : db.tickets.find? (fun t => t.customer_id = user_id
        && t.flight_number = request.flight_number
        && t.flight_date = request.flight_date) = none)
    (hq : fl.available_tickets ≠ 0)
    (hu : ∀ g ∈ db.flights, g.flight_id = fl.flight_id → g = fl) :
    (book_ticket_for_flight db user_id request ⟨qc, some msg, 0⟩).1 =
        .error (.DatabaseError msg) ∧
    (book_ticket_for_flight db user_id request ⟨qc, some msg, 0⟩).2.tickets = db.tickets ∧
    findFlight (book_ticket_for_flight db user_id request ⟨qc, some msg, 0⟩).2
        request.flight_number request.flight_date =
      some { fl with available_tickets := fl.available_tickets - 1,
                     version := fl.version + 2 * (qc : Int) + 1 } := by
  have hacq := acquire_quota_spec qc db request.flight_number request.flight_date fl hf hq hu
  have hfinal := findFlight_decrementMap db request.flight_number request.flight_date fl
    (2 * (qc : Int)) hf
  refine ⟨?_, ?_, ?_⟩ <;>
    simp only [book_ticket_for_flight, hf, hnodup, hacq]
  exact hfinal

/-- Witness for C9: flight 101 (2 tickets left, version 0), one transient
conflict, then the insert fails: the caller sees the store error and the
store keeps available_tickets = 1, version = 4, with no ticket row. -/
theorem insert_failure_keeps_quota_decremented_witness :
    findFlight twoLegDb 101 10 = some ⟨1, 101, 10, 1, 0⟩ ∧
    ((book_ticket_for_flight twoLegDb 3 ⟨101, 10, none⟩ ⟨1, some "insert broke", 0⟩).1 =
        .error (.DatabaseError "insert broke") ∧
     (book_ticket_for_flight twoLegDb 3 ⟨101, 10, none⟩ ⟨1, some "insert broke", 0⟩).2.tickets =
        twoLegDb.tickets ∧
     findFlight (book_ticket_for_flight twoLegDb 3 ⟨101, 10, none⟩ ⟨1, some "insert broke", 0⟩).2
        101 10 = some ⟨1, 101, 10, 0, 3⟩) := by
  refine ⟨by decide, ?_⟩
  have h := insert_failure_keeps_quota_decremented twoLegDb 3 ⟨101, 10, none⟩ 1 "insert broke"
    ⟨1, 101, 10, 1, 0⟩ (by decide) (by decide) (by decide) (by decide)
  exact ⟨h.1, h.2.1, by rw [h.2.2]; decide⟩

/-- Witness for C4 at a concrete store with a nonzero conflict budget. -/
theorem book_seat_occupied_rejected_witness :
    findSeat bookedSeatDb 1 5 = some ⟨1, 5, SeatStatus.Booked, 4⟩ ∧
    (book_seat bookedSeatDb 7 1 5 none 5 =
      ((.error (.ValidationError "The new seat is already booked or unavailable")), bookedSeatDb) ∧
     resultConflict (book_seat bookedSeatDb 7 1 5 none 5).1 = false) :=
  ⟨by decide, book_seat_occupied_rejected bookedSeatDb 7 1 5 none 5
    ⟨1, 5, SeatStatus.Booked, 4⟩ (by decide) (by decide)⟩

/-- C10: booking an empty list of flights returns `Ok` with status exactly
"Confirmed" and no flight bookings, and leaves the store untouched. -/
theorem book_ticket_empty_request (db : DB) (user_id : Int) (envs : List LegEnv) :
    book_ticket db user_id { flights := [] } envs =
      (.ok { flight_bookings := [], booking_status := "Confirmed" }, db) := rfl

/-- C6: a customer who already holds a Ticket row for the requested
(flight_number, flight_date) is rejected with an error and the store —
in particular the flight's `available_tickets` and `version` — is unchanged:
the duplicate check precedes the OCC retry loop. -/
theorem book_ticket_for_flight_rejects_rebooking (db : DB) (user_id : Int)
    (request : FlightBookingRequest) (env : LegEnv) (t : TicketRow)
    (ht : t ∈ db.tickets) (hc : t.customer_id = user_id)
    (hn : t.flight_number = request.flight_number)
    (hd : t.flight_date = request.flight_date) :
    (∃ e, (book_ticket_for_flight db user_id request env).1 = .error e) ∧
    (book_ticket_for_flight db user_id request env).2 = db := by
  unfold book_ticket_for_flight
  cases hf : findFlight db request.flight_number request.flight_date with
  | none => exact ⟨⟨_, rfl⟩, rfl⟩
  | some fl =>
    have hs : (db.tickets.find? (fun t => t.customer_id = user_id
        && t.flight_number = request.flight_number
        && t.flight_date = request.flight_date)).isSome := by
      rw [List.find?_isSome]
      exact ⟨t, ht, by simp [hc, hn, hd]⟩
    obtain ⟨w, hw⟩ := Option.isSome_iff_exists.mp hs
    rw [hw]
    exact ⟨⟨_, rfl⟩, rfl⟩

/-- C1: the code does not satisfy the claim — compensation restores the
quota (flight 1 returns to 1 ticket, version 2) but the `DELETE FROM ticket
WHERE id = ?` in `revert_booking` is bound to `flight.flight_id` (here 1)
instead of the leg's returned `ticket_id` (here 7), so the compensated leg's
Ticket row survives in the store.  Evaluated at a 2-leg booking whose second
leg is fully booked: ticket row ⟨7, 3, 1, …⟩ is still present in the final
state while the claim (and the spec's compensation-correctness property)
require it deleted. -/
theorem compensation_misses_ticket_row :
    book_ticket twoLegDb 3 ⟨[⟨101, 10, none⟩, ⟨102, 10, none⟩]⟩ [] =
      ((.error (.ValidationError
        "Failed to book some of your flights, please try again: Validation error: This flight is fully booked.")),
       ⟨[⟨1, 101, 10, 1, 2⟩, ⟨2, 102, 10, 0, 0⟩], [], [⟨7, 3, 1, none, 10, 101⟩], [], 8⟩) := by
  decide

/-- Witness for C6 at a concrete store. -/
theorem book_ticket_for_flight_rejects_rebooking_witness :
    (⟨5, 3, 1, none, 10, 101⟩ : TicketRow) ∈ rebookDb.tickets ∧
    (∃ e, (book_ticket_for_flight rebookDb 3 ⟨101, 10, none⟩ defaultLegEnv).1 = .error e) ∧
    (book_ticket_for_flight rebookDb 3 ⟨101, 10, none⟩ defaultLegEnv).2 = rebookDb := by
  refine ⟨by decide, ?_⟩
  exact book_ticket_for_flight_rejects_rebooking rebookDb 3 ⟨101, 10, none⟩ defaultLegEnv
    ⟨5, 3, 1, none, 10, 101⟩ (by decide) (by decide) (by decide) (by decide)

end BookingEngine
